import Mathlib

/-!
Verification development for `src/part9_hw_interrupt/src/main.cpp` (FreeRTOS
hardware-interrupt sampling demo).

The C program consists of:
  * a circular buffer `circ_bbuf_t` with `circ_bbuf_push` / `circ_bbuf_pop`;
  * a timer ISR `onTimer` that samples the ADC, pushes into the buffer and,
    once `buf_idx` reaches `BUF_LEN`, notifies the averaging task;
  * a task `taskCalculateAverage` that pops `BUF_LEN` values (asserting each
    pop succeeds), publishes their mean into the global `avg`, and resets
    `buf_idx`;
  * a task `taskCLI` that echoes serial input and, on a line whose first three
    characters are `avg`, prints the current average.

The embedding below translates these functions directly.  Machine integers are
modelled as `Nat` (all index arithmetic is done modulo `max_len` exactly as in
the source; `buf_idx` is guarded below `BUF_LEN` so `uint8_t` overflow cannot
occur), the C `float` accumulator as `ℚ`, and the failing `assert` in
`taskCalculateAverage` as `Option.none` (process abort).
-/

/-- Length of the ISR fifo sample buffer (`BUF_LEN` in the source). -/
def BUF_LEN : Nat := 10

/-- Command buffer length of the CLI task (`CMD_BUF_LEN` in the source). -/
def CMD_BUF_LEN : Nat := 255

/-- The literal command string `"avg"` (`avg_cmd` in the source). -/
def avg_cmd : List Char := ['a', 'v', 'g']

/-- The circular-buffer record `circ_bbuf_t`: backing array, head index
(next write slot), tail index (next read slot) and fixed capacity. -/
structure circ_bbuf_t where
  arr : List Nat
  head : Nat
  tail : Nat
  max_len : Nat
deriving Repr, DecidableEq

/-- The global buffer as initialised by the `CIRC_BBUF_DEF` macro: a
zero-initialised backing array, `head = 0`, `tail = 0`, `max_len = BUF_LEN`. -/
def my_circ_buf : circ_bbuf_t :=
  { arr := List.replicate BUF_LEN 0, head := 0, tail := 0, max_len := BUF_LEN }

/-- Translation of `circ_bbuf_push`: if `tail == head` return `-1` (the
source's early-return branch, commented "queue is full") without touching the
buffer; otherwise store `data` at `head` and advance `head` modulo
`max_len`, returning `0`. -/
def circ_bbuf_push (buf : circ_bbuf_t) (data : Nat) : Int × circ_bbuf_t :=
  if buf.tail = buf.head then
    (-1, buf)
  else
    (0, { buf with arr := buf.arr.set buf.head data,
                   head := (buf.head + 1) % buf.max_len })

/-- Translation of `circ_bbuf_pop`: if `tail == head` (buffer empty) return
`-1` without touching the buffer and without writing through the output
pointer (modelled as the `Option` component being `none`); otherwise read the
value at `tail`, advance `tail` modulo `max_len` and return `0`. -/
def circ_bbuf_pop (buf : circ_bbuf_t) : Int × circ_bbuf_t × Option Nat :=
  if buf.tail = buf.head then
    (-1, buf, none)
  else
    (0, { buf with tail := (buf.tail + 1) % buf.max_len },
     some (buf.arr.getD buf.tail 0))

/-- The shared globals of the program: the circular buffer, the batch counter
`buf_idx`, the published average `avg` and (as an instrument for counting
wake signals) the number of `vTaskNotifyGiveFromISR` calls issued so far. -/
structure SysState where
  buf : circ_bbuf_t
  buf_idx : Nat
  avg : ℚ
  notify_count : Nat
deriving Repr, DecidableEq

/-- The initial global state: empty buffer, `buf_idx = 0`, `avg = 0.`, no
notification issued yet. -/
def initState : SysState :=
  { buf := my_circ_buf, buf_idx := 0, avg := 0, notify_count := 0 }

/-- Translation of the ISR `onTimer`, parametrised by the value returned by
`analogRead`.  If `buf_idx < BUF_LEN`, attempt a push and increment `buf_idx`
only when the push returned `0`; afterwards, if `buf_idx >= BUF_LEN`, call
`vTaskNotifyGiveFromISR` (modelled by bumping `notify_count`; the returned
`Bool` records whether the notification was issued on this firing). -/
def onTimer (s : SysState) (adc_val : Nat) : SysState × Bool :=
  let s1 :=
    if s.buf_idx < BUF_LEN then
      let r := circ_bbuf_push s.buf adc_val
      if r.1 = 0 then { s with buf := r.2, buf_idx := s.buf_idx + 1 }
      else { s with buf := r.2 }
    else s
  if BUF_LEN ≤ s1.buf_idx then
    ({ s1 with notify_count := s1.notify_count + 1 }, true)
  else
    (s1, false)

/-- The drain loop of `taskCalculateAverage`: `n` iterations of
`pop; assert(ret != -1); tmp_avg += val`.  A failing pop makes the `assert`
fire, aborting the process — modelled as `none`. -/
def drain_loop : Nat → circ_bbuf_t → ℚ → Option (circ_bbuf_t × ℚ)
  | 0, buf, acc => some (buf, acc)
  | n + 1, buf, acc =>
    let r := circ_bbuf_pop buf
    if r.1 = -1 then none
    else drain_loop n r.2.1 (acc + (Nat.cast (r.2.2.getD 0) : ℚ))

/-- One iteration of the `while (1)` body of `taskCalculateAverage`, after the
task has been woken by `ulTaskNotifyTake`: drain `BUF_LEN` values (aborting on
a failed pop), divide the accumulated sum by `BUF_LEN`, publish it to `avg`
and reset `buf_idx` to `0`. -/
def taskCalculateAverage_iter (s : SysState) : Option SysState :=
  match drain_loop BUF_LEN s.buf 0 with
  | none => none
  | some (buf', total) =>
    some { s with buf := buf', avg := total / (BUF_LEN : ℚ), buf_idx := 0 }

/-- Model of Arduino `Print::println(double)` (default 2 fractional digits,
non-negative values): round to two decimals — `n = ⌊100 * q + 1 / 2⌋`,
computed on the numerator and denominator so that it evaluates by kernel
reduction — then print the integer part, a dot and two digits.  `%.2f` in
the dead `sprintf` of the source formats the same digits. -/
def fmt2 (q : ℚ) : String :=
  let n : Int := Int.fdiv (200 * q.num + (q.den : Int)) (2 * (q.den : Int))
  let ip := n / 100
  let fr := (n % 100).toNat
  toString ip ++ "." ++ (if fr < 10 then "0" else "") ++ toString fr

/-- One iteration of the `while (1)` body of `taskCLI` for one available
serial character `c`: echo `c`; append it to the command buffer if fewer than
`CMD_BUF_LEN - 1` characters are stored; on `'\n'` or `'\r'`, if the first
`strlen("avg")` bytes of the command buffer equal `"avg"` (`memcmp`), print
the average via `Serial.println(avg)` — note the source builds
`"Average: %.2f"` into a local `out` buffer but never prints it — and clear
the command buffer.  Returns the (unchanged) shared state, the new command
buffer, and the strings written to the serial port. -/
def taskCLI_step (s : SysState) (cmd_buf : List Char) (c : Char) :
    SysState × List Char × List String :=
  let echo := String.singleton c
  let cmd_buf1 :=
    if cmd_buf.length < CMD_BUF_LEN - 1 then cmd_buf ++ [c] else cmd_buf
  if c = '\n' ∨ c = '\r' then
    if cmd_buf1.take avg_cmd.length = avg_cmd then
      (s, [], [echo, fmt2 s.avg ++ "\r\n"])
    else
      (s, [], [echo])
  else
    (s, cmd_buf1, [echo])

/-- Run `taskCLI_step` over a list of incoming characters, starting from
command buffer `cmd_buf`, collecting all serial output in order. -/
def runCLI (s : SysState) : List Char → List Char → List String
  | [], _ => []
  | c :: cs, cmd_buf =>
    let r := taskCLI_step s cmd_buf c
    r.2.2 ++ runCLI s cs r.2.1

/-- States of the shared globals reachable under the program's own protocol:
the initial state, an ISR firing (with an arbitrary ADC reading), or a
completed iteration of `taskCalculateAverage` (which contributes a next state
only when its drain does not abort). -/
inductive Reachable : SysState → Prop
  | init : Reachable initState
  | isr (s : SysState) (v : Nat) : Reachable s → Reachable (onTimer s v).1
  | avg_task (s s' : SysState) : Reachable s →
      taskCalculateAverage_iter s = some s' → Reachable s'

/-! ### Helper lemmas -/

/-- An ISR firing from the initial state changes nothing and issues no
notification: the push is rejected by the `tail == head` early return. -/
lemma onTimer_initState (v : Nat) : onTimer initState v = (initState, false) :=
  rfl

/-- The averaging task aborts from the initial state: the very first pop of
its drain fails. -/
lemma iter_initState : taskCalculateAverage_iter initState = none := rfl

/-- Every reachable state is the initial state: no ISR firing ever changes
the globals (the push is always rejected), and the averaging task never
completes an iteration. -/
lemma reachable_eq (s : SysState) (h : Reachable s) : s = initState := by
  induction h with
  | init => rfl
  | isr s v _ ih => rw [ih, onTimer_initState]
  | avg_task s s' _ hiter ih =>
    rw [ih, iter_initState] at hiter
    cases hiter

/-- If strictly fewer than `n` values separate `tail` from `head` (modulo the
capacity `10`), an `n`-step drain hits the empty check and aborts. -/
lemma drain_loop_none (n : Nat) : ∀ (buf : circ_bbuf_t) (acc : ℚ),
    buf.max_len = 10 → buf.head < 10 → buf.tail < 10 →
    (buf.head + 10 - buf.tail) % 10 < n →
    drain_loop n buf acc = none := by
  induction n with
  | zero => intro buf acc _ _ _ hd; omega
  | succ n ih =>
    intro buf acc h10 hh ht hd
    by_cases he : buf.tail = buf.head
    · simp [drain_loop, circ_bbuf_pop, he]
    · simp only [drain_loop, circ_bbuf_pop, if_neg he]
      norm_num
      apply ih
      · exact h10
      · exact hh
      · simp only [h10]; omega
      · simp only [h10]; omega

/-- A completed iteration of `taskCalculateAverage` resets `buf_idx` to 0. -/
lemma iter_some_buf_idx (s s' : SysState)
    (h : taskCalculateAverage_iter s = some s') : s'.buf_idx = 0 := by
  unfold taskCalculateAverage_iter at h
  cases hdl : drain_loop BUF_LEN s.buf 0 with
  | none => rw [hdl] at h; cases h
  | some p =>
    obtain ⟨buf', total⟩ := p
    rw [hdl] at h
    cases h
    rfl

/-- The ISR never pushes `buf_idx` above `BUF_LEN`: the push is guarded by
`buf_idx < BUF_LEN` and the increment happens only under that guard. -/
lemma onTimer_buf_idx_le (s : SysState) (v : Nat) (h : s.buf_idx ≤ 10) :
    ((onTimer s v).1).buf_idx ≤ 10 := by
  unfold onTimer BUF_LEN
  dsimp only
  split
  · split
    · split <;> dsimp only <;> omega
    · split <;> dsimp only <;> omega
  · split <;> dsimp only <;> omega

/-! ### Supporting definitions for the claims -/

/-- Buffer `buf` holds exactly the unconsumed FIFO queue `q`: the head is
`q.length` slots past the tail modulo the capacity, and the slots from the
tail onwards hold the elements of `q` in order. -/
def represents (buf : circ_bbuf_t) (q : List Nat) : Prop :=
  q.length ≤ buf.max_len ∧
  buf.head = (buf.tail + q.length) % buf.max_len ∧
  ∀ i, i < q.length → buf.arr.getD ((buf.tail + i) % buf.max_len) 0 = q.getD i 0

instance (buf : circ_bbuf_t) (q : List Nat) : Decidable (represents buf q) := by
  unfold represents
  infer_instance

/-- A concrete buffer holding capacity-worth (10) of unconsumed samples:
ten values were written starting at slot 0, wrapping `head` back onto
`tail`. -/
def buf_full : circ_bbuf_t :=
  { arr := [0, 1, 2, 3, 4, 5, 6, 7, 8, 9], head := 0, tail := 0, max_len := 10 }

/-- Number of values a drain can retrieve before `tail` meets `head`: the
modular distance from `tail` to `head`. -/
def retrievable_count (buf : circ_bbuf_t) : Nat :=
  (buf.head + buf.max_len - buf.tail) % buf.max_len

/-- A system state whose published average is `150.0`, as produced by the
spec's end-to-end scenario (batch `[100, 200, ..., 100, 200]`). -/
def avg150State : SysState :=
  { buf := my_circ_buf, buf_idx := 0, avg := 150, notify_count := 0 }

/-! ### Claims -/

/-- C1, counterexample: the claim says a push performed by the Sampler never
takes the `head == tail` early-return in a reachable state.  Already in the
reachable initial state `head = tail` holds (the buffer is empty) and the
push takes the early-return, yielding `-1`. -/
theorem C1_counterexample :
    Reachable initState ∧ initState.buf.tail = initState.buf.head ∧
      circ_bbuf_push initState.buf 512 = (-1, initState.buf) :=
  ⟨Reachable.init, rfl, rfl⟩

/-- C1, amended: in every reachable state a push takes the `head == tail`
early-return and returns `-1` leaving the buffer unchanged — `head` equals
`tail` exactly when the buffer is empty, the buffer starts empty, and since
the early-return rejects every push from the empty state the buffer stays
empty forever. -/
theorem C1_push_always_takes_early_return (s : SysState) (v : Nat)
    (h : Reachable s) :
    s.buf.tail = s.buf.head ∧ circ_bbuf_push s.buf v = (-1, s.buf) := by
  have hs := reachable_eq s h
  subst hs
  exact ⟨rfl, rfl⟩

/-- C1, witness: the amended theorem applied at the initial state. -/
theorem C1_witness :
    initState.buf.tail = initState.buf.head ∧
      circ_bbuf_push initState.buf 0 = (-1, initState.buf) :=
  C1_push_always_takes_early_return initState 0 Reachable.init

/-- C2: the claim needs sequences of successful pushes starting from the
empty buffer; evaluating the code shows the very first push from the empty
buffer already fails with `-1` (the `tail == head` check rejects it), so no
sequence of `k ≥ 1` successful pushes exists and FIFO popping of pushed
values is unattainable. -/
theorem C2_push_from_empty_fails (v : Nat) :
    circ_bbuf_push my_circ_buf v = (-1, my_circ_buf) :=
  rfl

/-- C3: against the claim that exactly one wake signal is issued per
completed batch, (a) in every reachable state no batch has ever completed
and no wake signal has ever been issued (`notify_count = 0`, `buf_idx = 0`),
and (b) from any state with `buf_idx = 10` the ISR issues the notification
again on every firing while leaving `buf_idx` at 10, so the signal is
re-issued on each tick until the counter is reset. -/
theorem C3_no_wake_and_renotify (s t : SysState) (v : Nat)
    (hs : Reachable s) (ht : t.buf_idx = 10) :
    (s.notify_count = 0 ∧ s.buf_idx = 0) ∧
      ((onTimer t v).2 = true ∧ ((onTimer t v).1).buf_idx = 10 ∧
        ((onTimer t v).1).notify_count = t.notify_count + 1) := by
  constructor
  · have hs' := reachable_eq s hs
    subst hs'
    exact ⟨rfl, rfl⟩
  · have h1 : ¬ (t.buf_idx < BUF_LEN) := by simp [ht, BUF_LEN]
    have h2 : BUF_LEN ≤ t.buf_idx := by simp [ht, BUF_LEN]
    unfold onTimer
    dsimp only
    rw [if_neg h1, if_pos h2]
    exact ⟨rfl, ht, rfl⟩

/-- C3, witness: the theorem applied at the initial state and at a concrete
state with `buf_idx = 10`. -/
theorem C3_witness :
    (initState.notify_count = 0 ∧ initState.buf_idx = 0) ∧
      ((onTimer { buf := my_circ_buf, buf_idx := 10, avg := 0, notify_count := 0 } 7).2 = true ∧
        ((onTimer { buf := my_circ_buf, buf_idx := 10, avg := 0, notify_count := 0 } 7).1).buf_idx = 10 ∧
        ((onTimer { buf := my_circ_buf, buf_idx := 10, avg := 0, notify_count := 0 } 7).1).notify_count =
          ({ buf := my_circ_buf, buf_idx := 10, avg := 0, notify_count := 0 } : SysState).notify_count + 1) :=
  C3_no_wake_and_renotify initState
    { buf := my_circ_buf, buf_idx := 10, avg := 0, notify_count := 0 } 7
    Reachable.init rfl

/-- C4: the claim's drain-and-publish cycle never completes.  For every
well-formed buffer state the drain of `BUF_LEN = 10` values aborts on a
failed pop (the `assert` fires): at most 9 pops can succeed before `tail`
meets `head` in a 10-slot buffer, so the average is never published and
`buf_idx` is never reset by this path. -/
theorem C4_drain_always_aborts (s : SysState)
    (h10 : s.buf.max_len = 10) (hh : s.buf.head < 10) (ht : s.buf.tail < 10) :
    taskCalculateAverage_iter s = none := by
  have h := drain_loop_none 10 s.buf 0 h10 hh ht (by omega)
  unfold taskCalculateAverage_iter
  rw [show BUF_LEN = 10 from rfl, h]

/-- C4, witness: the theorem applied to a buffer holding five samples. -/
theorem C4_witness :
    taskCalculateAverage_iter
      { buf := { arr := [1, 2, 3, 4, 5, 0, 0, 0, 0, 0], head := 5, tail := 0, max_len := 10 },
        buf_idx := 5, avg := 0, notify_count := 0 } = none :=
  C4_drain_always_aborts _ rfl (by decide) (by decide)

/-- C5: evaluating `taskCLI` with the shared average at `150.0`: the input
line `avg` followed by `'\n'` produces the echoes and then the bare value
`150.00` (the code calls `Serial.println(avg)`; the formatted local
`"Average: %.2f"` buffer is never printed), not `Average: 150.00`; the line
`avgx` — not equal to `avg` — also triggers the output, because `memcmp`
compares only the first three characters; the line `av` produces echoes
only. -/
theorem C5_cli_eval :
    runCLI avg150State ['a', 'v', 'g', '\n'] [] =
        ["a", "v", "g", "\n", "150.00\r\n"] ∧
      runCLI avg150State ['a', 'v', 'g', 'x', '\n'] [] =
        ["a", "v", "g", "x", "\n", "150.00\r\n"] ∧
      runCLI avg150State ['a', 'v', '\n'] [] = ["a", "v", "\n"] := by
  refine ⟨?_, ?_, ?_⟩ <;> rfl

/-- C6: pushing into a buffer that holds capacity-worth (10) of unconsumed
samples fails with `-1` and leaves the stored array, head index and tail
index unchanged.  In this representation a buffer holding 10 unconsumed
samples necessarily has `head = tail` (head wrapped around onto tail), which
is exactly the state the push's early-return rejects without mutating
anything. -/
theorem C6_push_full_unchanged (buf : circ_bbuf_t) (q : List Nat) (v : Nat)
    (h10 : buf.max_len = 10) (ht : buf.tail < 10)
    (hrep : represents buf q) (hlen : q.length = 10) :
    circ_bbuf_push buf v = (-1, buf) := by
  have hhead : buf.tail = buf.head := by
    have h := hrep.2.1
    rw [hlen, h10] at h
    omega
  simp [circ_bbuf_push, hhead]

/-- C6, witness: the theorem applied to a concrete buffer holding the ten
samples `0..9`. -/
theorem C6_witness :
    represents buf_full [0, 1, 2, 3, 4, 5, 6, 7, 8, 9] ∧
      circ_bbuf_push buf_full 99 = (-1, buf_full) :=
  ⟨by decide,
   C6_push_full_unchanged buf_full [0, 1, 2, 3, 4, 5, 6, 7, 8, 9] 99 rfl
     (by decide) (by decide) rfl⟩

/-- C7: if fewer than 10 values are retrievable during the Averager's drain,
a pop fails, the `assert` fires (modelled as `none`: the process aborts) and
no average — in particular no under-averaged value — is ever published to
`avg`. -/
theorem C7_underrun_aborts (s : SysState)
    (h10 : s.buf.max_len = 10) (hh : s.buf.head < 10) (ht : s.buf.tail < 10)
    (hlt : retrievable_count s.buf < 10) :
    taskCalculateAverage_iter s = none := by
  have h : (s.buf.head + 10 - s.buf.tail) % 10 < 10 := by
    unfold retrievable_count at hlt
    rw [h10] at hlt
    exact hlt
  have hd := drain_loop_none 10 s.buf 0 h10 hh ht h
  unfold taskCalculateAverage_iter
  rw [show BUF_LEN = 10 from rfl, hd]

/-- C7, witness: the theorem applied to a buffer with two retrievable
samples. -/
theorem C7_witness :
    retrievable_count { arr := [7, 7, 7, 7, 7, 7, 7, 7, 7, 7], head := 3, tail := 1, max_len := 10 } < 10 ∧
      taskCalculateAverage_iter
        { buf := { arr := [7, 7, 7, 7, 7, 7, 7, 7, 7, 7], head := 3, tail := 1, max_len := 10 },
          buf_idx := 10, avg := 0, notify_count := 1 } = none :=
  ⟨by decide, C7_underrun_aborts _ rfl (by decide) (by decide) (by decide)⟩

/-- C8: the invariant `0 ≤ buf_idx ≤ 10` holds in every reachable state
(`buf_idx` is a `Nat`, so only the upper bound is non-trivial): the ISR
pushes only under the guard `buf_idx < BUF_LEN` and increments only after a
successful push under that guard, and the Averager resets the counter to 0
when an iteration completes. -/
theorem C8_buf_idx_invariant (s : SysState) (h : Reachable s) :
    s.buf_idx ≤ 10 := by
  induction h with
  | init => exact Nat.zero_le 10
  | isr s v _ ih => exact onTimer_buf_idx_le s v ih
  | avg_task s s' _ hiter _ =>
    rw [iter_some_buf_idx s s' hiter]
    exact Nat.zero_le 10

/-- C8, witness: the invariant at the initial state. -/
theorem C8_witness : initState.buf_idx ≤ 10 :=
  C8_buf_idx_invariant initState Reachable.init

/-- C9: the shared average is written only by the Averager's publish step:
an ISR firing never changes `avg`, and a `taskCLI` iteration (which only
reads `avg` to print it) never changes `avg`; hence reads of `avg` between
publishes all return the same value. -/
theorem C9_avg_single_writer (s : SysState) (v : Nat) (cmd_buf : List Char)
    (c : Char) :
    ((onTimer s v).1).avg = s.avg ∧ ((taskCLI_step s cmd_buf c).1).avg = s.avg := by
  constructor
  · unfold onTimer
    dsimp only
    split
    · split
      · split <;> rfl
      · split <;> rfl
    · split <;> rfl
  · unfold taskCLI_step
    dsimp only
    split
    · split
      · split <;> rfl
      · split <;> rfl
    · rfl

/-- C10: popping from an empty buffer (`head == tail`) fails with `-1`,
leaves the head index, tail index and stored array unchanged, and does not
write through the output pointer (the output component is `none`). -/
theorem C10_pop_empty_unchanged (buf : circ_bbuf_t) (h : buf.tail = buf.head) :
    circ_bbuf_pop buf = (-1, buf, none) := by
  simp [circ_bbuf_pop, h]

/-- C10, witness: the theorem applied to the initial (empty) buffer. -/
theorem C10_witness : circ_bbuf_pop my_circ_buf = (-1, my_circ_buf, none) :=
  C10_pop_empty_unchanged my_circ_buf rfl
